import Mathlib

/-!
Verification of `self_pipe/pipe.py` (class `SelfPipe`): a shallow embedding
of the constructor, the signal handler and the poll operation, together
with theorems about the claims of the specification.

Modelling conventions:
* A Python exception is a value of `PyError`.
* The pipe's kernel buffer is a FIFO list of bytes (`List Nat`, values < 256),
  oldest byte first; its capacity is the usual 64 KiB.
* The host's `signal.Signals` catalog is an arbitrary membership test
  `catalog : Nat → Bool`, since the set of valid signal numbers is
  host-defined.
* The process-wide signal disposition table is a function
  `Nat → Option Nat`, mapping a signal number to the id of the mailbox
  whose bound handler is currently installed (`none` = not installed by
  any modelled mailbox).
* `timeout` is a rational number, standing in for the Python float.
-/

/-- Python exceptions that the code (or the OS primitives it calls) can
raise, by kind and, for `ValueError`, the message. -/
inductive PyError where
  | valueError (msg : String)
  | assertionError
  | blockingIOError
  deriving Repr, DecidableEq

/-- The state of one `SelfPipe` object together with the kernel buffer of
its pipe: the fields `pipe_fd_r` and `pipe_fd_w` set by `__init__`
(line 59), and `buf`, the bytes written to `pipe_fd_w` and not yet read
from `pipe_fd_r`, oldest first. -/
structure SelfPipeState where
  pipe_fd_r : Nat
  pipe_fd_w : Nat
  buf : List Nat
  deriving Repr, DecidableEq

/-- Capacity of a Linux pipe's kernel buffer in bytes. -/
def PIPE_CAPACITY : Nat := 65536

/-- Outcome of the `os.write(self.pipe_fd_w, bytes([signum]))` call as seen
by the handler: either the OS transferred `n` bytes leaving the pipe buffer
in state `newBuf`, or the call raised an exception. -/
inductive WriteOutcome where
  | transferred (n : Nat) (newBuf : List Nat)
  | raised (e : PyError)
  deriving Repr, DecidableEq

/-- `os.write` of the single byte `b` to the non-blocking pipe write end:
appends the byte and reports one byte transferred when the buffer has
room, and raises `BlockingIOError` when the buffer is full. -/
def osWrite (buf : List Nat) (b : Nat) : WriteOutcome :=
  if buf.length < PIPE_CAPACITY then .transferred 1 (buf ++ [b])
  else .raised .blockingIOError

/-- How one invocation of the handler ends: it returns normally, it raises
an exception that propagates out of the handler, or the process is
terminated from within the handler. The source never terminates the
process; the constructor `aborted` exists so that the failure policy can
be stated and compared. -/
inductive HandlerOutcome where
  | ok
  | raised (e : PyError)
  | aborted
  deriving Repr, DecidableEq

/-- `SelfPipe.handle_signal` (lines 64-74), with the outcome of the
`os.write` call supplied as an argument so that every path of the handler
can be examined. Mirrors the source: `assert signum` (fails exactly when
`signum` is 0), then `bytes([signum])` (raises `ValueError` when the value
does not fit a byte), then the write, then
`if written != 1: raise ValueError(f"wrote {written} bytes instead of 1")`. -/
def handle_signalGen (st : SelfPipeState) (signum : Nat) (w : WriteOutcome) :
    HandlerOutcome × SelfPipeState :=
  if signum = 0 then (.raised .assertionError, st)
  else if 256 ≤ signum then
    (.raised (.valueError ("bytes must be in range(0, 256)")), st)
  else
    match w with
    | .raised e => (.raised e, st)
    | .transferred n newBuf =>
      if n ≠ 1 then
        (.raised (.valueError ("wrote " ++ toString n ++ " bytes instead of 1")),
         { st with buf := newBuf })
      else (.ok, { st with buf := newBuf })

/-- `SelfPipe.handle_signal` run against the real pipe: the write outcome
is the one `os.write` produces on the current buffer. -/
def handle_signal (st : SelfPipeState) (signum : Nat) :
    HandlerOutcome × SelfPipeState :=
  handle_signalGen st signum (osWrite st.buf signum)

/-- `select.select([self.pipe_fd_r], [], [], timeout)` (line 88), reduced
to what the caller inspects: raises `ValueError` for a negative timeout
(CPython rejects it), and otherwise reports whether the read end is
readable, which for the pipe means at least one undrained byte. Deliveries
arriving during the wait are not modelled: readability is decided on the
buffer as it stands at the call. -/
def selectReadable (buf : List Nat) (timeout : ℚ) : Except PyError Bool :=
  if timeout < 0 then .error (.valueError ("timeout must be non-negative"))
  else .ok (!buf.isEmpty)

/-- `os.read(self.pipe_fd_r, 1)` on a readable pipe: the data read (at most
one byte, the oldest) and the remaining buffer. -/
def osRead1 (buf : List Nat) : List Nat × List Nat :=
  match buf with
  | [] => ([], [])
  | b :: rest => ([b], rest)

/-- `signal.Signals(signum)` (line 96): the decode at the poll boundary.
Returns the catalog member for `signum`, or raises
`ValueError(f"{signum} is not a valid Signals")` when `signum` is not in
the host catalog. -/
def SignalsDecode (catalog : Nat → Bool) (n : Nat) : Except PyError Nat :=
  if catalog n then .ok n
  else .error (.valueError (toString n ++ " is not a valid Signals"))

/-- `SelfPipe.poll` (lines 76-98): select on the read end bounded by
`timeout`; `None` when nothing is readable; otherwise read one byte,
`assert len(data) == 1`, and decode it via `signal.Signals`. The result is
`.ok none` for "no signal", `.ok (some s)` for a decoded signal, and
`.error e` when an exception propagates. -/
def poll (catalog : Nat → Bool) (st : SelfPipeState) (timeout : ℚ) :
    Except PyError (Option Nat) × SelfPipeState :=
  match selectReadable st.buf timeout with
  | .error e => (.error e, st)
  | .ok readable =>
    if !readable then (.ok none, st)
    else
      match osRead1 st.buf with
      | ([b], rest) =>
        match SignalsDecode catalog b with
        | .error e => (.error e, { st with buf := rest })
        | .ok sig => (.ok (some sig), { st with buf := rest })
      | (_, rest) => (.error .assertionError, { st with buf := rest })

/-- Process-wide OS state visible to the constructor: the next free file
descriptor number and the signal disposition table. -/
structure World where
  nextFd : Nat
  disp : Nat → Option Nat

/-- `signal.signal(sig, handler)` (line 62): installs `handler` (the id of
the owning mailbox) as the process-wide disposition of `sig`, replacing
whatever was there. -/
def signalSignal (disp : Nat → Option Nat) (sig : Nat) (handler : Nat) :
    Nat → Option Nat :=
  Function.update disp sig (some handler)

/-- The registration loop of `__init__` (lines 61-62):
`for sig in sigs: signal.signal(sig, self.handle_signal)`. -/
def registerAll (disp : Nat → Option Nat) (sigs : List Nat) (handler : Nat) :
    Nat → Option Nat :=
  sigs.foldl (fun d s => signalSignal d s handler) disp

/-- `SelfPipe.__init__` (lines 44-62): raise
`ValueError("no signals specified")` when `sigs` is empty — before
`os.pipe2` runs and before any registration; otherwise create the pipe
(two fresh descriptors) and register every requested signal. The resulting
world is returned alongside the outcome so that side effects (or their
absence) are visible. -/
def SelfPipe.init (mailboxId : Nat) (w : World) (sigs : List Nat) :
    Except PyError SelfPipeState × World :=
  if sigs.isEmpty then
    (.error (.valueError ("no signals specified")), w)
  else
    (.ok { pipe_fd_r := w.nextFd, pipe_fd_w := w.nextFd + 1, buf := [] },
     { nextFd := w.nextFd + 2, disp := registerAll w.disp sigs mailboxId })

/-- The spec's `ConfigurationError`, as realized by the source: the
`ValueError("no signals specified")` raised for an empty signal list. -/
def configurationError : PyError := .valueError ("no signals specified")

/-- The names of the methods the source defines on class `SelfPipe`
(lines 17-98): the constructor, the handler and poll, and nothing else. -/
def SelfPipe.methodNames : List String := ["__init__", "handle_signal", "poll"]

/-- Deliver the signals of `ds` in order: one `handle_signal` invocation
per element, each acting on the state the previous one left. -/
def deliverAll (st : SelfPipeState) (ds : List Nat) : SelfPipeState :=
  ds.foldl (fun s d => (handle_signal s d).2) st

/-- The results of `k` successive `poll(timeout=0)` calls, each acting on
the state the previous one left. -/
def pollRun (catalog : Nat → Bool) : SelfPipeState → Nat →
    List (Except PyError (Option Nat))
  | _, 0 => []
  | st, k + 1 =>
    (poll catalog st 0).1 :: pollRun catalog (poll catalog st 0).2 k

/-! ### Helper lemmas -/

lemma handle_signal_valid (st : SelfPipeState) (s : Nat) (h0 : 0 < s)
    (h1 : s < 256) (hroom : st.buf.length < PIPE_CAPACITY) :
    handle_signal st s = (.ok, { st with buf := st.buf ++ [s] }) := by
  simp [handle_signal, handle_signalGen, osWrite, hroom, h0.ne', Nat.not_le.mpr h1]

lemma deliverAll_eq (ds : List Nat) : ∀ st : SelfPipeState,
    (∀ s ∈ ds, 0 < s ∧ s < 256) →
    st.buf.length + ds.length ≤ PIPE_CAPACITY →
    deliverAll st ds = { st with buf := st.buf ++ ds } := by
  induction ds with
  | nil => intro st _ _; simp [deliverAll]
  | cons d ds ih =>
    intro st hv hcap
    have hd := hv d (by simp)
    have hroom : st.buf.length < PIPE_CAPACITY := by
      simp at hcap; omega
    have hstep : deliverAll st (d :: ds)
        = deliverAll { st with buf := st.buf ++ [d] } ds := by
      simp [deliverAll, handle_signal_valid st d hd.1 hd.2 hroom]
    rw [hstep, ih]
    · simp
    · intro s hs; exact hv s (by simp [hs])
    · simp at hcap ⊢; omega

lemma poll_cons (catalog : Nat → Bool) (st : SelfPipeState) (b : Nat)
    (rest : List Nat) (hbuf : st.buf = b :: rest) (hcat : catalog b = true) :
    poll catalog st 0 = (.ok (some b), { st with buf := rest }) := by
  simp [poll, selectReadable, osRead1, SignalsDecode, hbuf, hcat]

lemma pollRun_buf (catalog : Nat → Bool) (ds : List Nat) : ∀ st : SelfPipeState,
    st.buf = ds → (∀ s ∈ ds, catalog s = true) →
    pollRun catalog st ds.length = ds.map (fun s => Except.ok (some s)) := by
  induction ds with
  | nil => intro st _ _; simp [pollRun]
  | cons d ds ih =>
    intro st hbuf hcat
    have hp := poll_cons catalog st d ds hbuf (hcat d (by simp))
    simp [pollRun, hp]
    exact ih { st with buf := ds } rfl (fun s hs => hcat s (by simp [hs]))

lemma poll_consumes_at_most_one (catalog : Nat → Bool) (st : SelfPipeState)
    (t : ℚ) : st.buf.length ≤ ((poll catalog st t).2).buf.length + 1 := by
  by_cases ht : t < 0
  · simp [poll, selectReadable, ht]
  · cases hbuf : st.buf with
    | nil => simp [poll, selectReadable, ht, hbuf]
    | cons b rest =>
      by_cases hc : catalog b <;>
        simp [poll, selectReadable, ht, hbuf, osRead1, SignalsDecode, hc]

lemma registerAll_cons (d : Nat → Option Nat) (a : Nat) (sigs : List Nat)
    (h : Nat) :
    registerAll d (a :: sigs) h = registerAll (signalSignal d a h) sigs h := rfl

lemma registerAll_not_mem (sigs : List Nat) : ∀ (d : Nat → Option Nat)
    (h s : Nat), s ∉ sigs → registerAll d sigs h s = d s := by
  induction sigs with
  | nil => intro d h s _; rfl
  | cons a sigs ih =>
    intro d h s hs
    have h1 : s ≠ a := fun he => hs (by simp [he])
    have h2 : s ∉ sigs := fun hm => hs (by simp [hm])
    rw [registerAll_cons, ih _ h s h2, signalSignal, Function.update_noteq h1]

lemma registerAll_mem (sigs : List Nat) : ∀ (d : Nat → Option Nat) (h s : Nat),
    s ∈ sigs → registerAll d sigs h s = some h := by
  induction sigs with
  | nil => intro d h s hs; cases hs
  | cons a sigs ih =>
    intro d h s hs
    by_cases hmem : s ∈ sigs
    · rw [registerAll_cons, ih _ h s hmem]
    · have hsa : s = a := by
        rcases List.mem_cons.mp hs with h1 | h1
        · exact h1
        · exact absurd h1 hmem
      subst hsa
      rw [registerAll_cons, registerAll_not_mem sigs _ h s hmem, signalSignal,
        Function.update_same]

lemma handle_signalGen_fds (st : SelfPipeState) (signum : Nat)
    (o : WriteOutcome) :
    (handle_signalGen st signum o).2.pipe_fd_r = st.pipe_fd_r
    ∧ (handle_signalGen st signum o).2.pipe_fd_w = st.pipe_fd_w := by
  unfold handle_signalGen
  split
  · exact ⟨rfl, rfl⟩
  · split
    · exact ⟨rfl, rfl⟩
    · match o with
      | .raised e => exact ⟨rfl, rfl⟩
      | .transferred n nb => by_cases hn : n = 1 <;> simp [hn]

lemma poll_fds (catalog : Nat → Bool) (st : SelfPipeState) (t : ℚ) :
    (poll catalog st t).2.pipe_fd_r = st.pipe_fd_r
    ∧ (poll catalog st t).2.pipe_fd_w = st.pipe_fd_w := by
  by_cases ht : t < 0
  · simp [poll, selectReadable, ht]
  · cases hbuf : st.buf with
    | nil => simp [poll, selectReadable, ht, hbuf]
    | cons b rest =>
      by_cases hc : catalog b <;>
        simp [poll, selectReadable, ht, hbuf, osRead1, SignalsDecode, hc]

/-! ### Claim theorems -/

/-- C1: for every sequence of N deliveries with signal identities
`s_1..s_N` (valid catalog members, hence nonzero byte values) followed by
N `poll` calls on the same mailbox, the i-th poll returns exactly `s_i`,
for every N with room in the pipe; and every poll call consumes at most
one pending notification. -/
theorem c1_poll_returns_deliveries_in_order (catalog : Nat → Bool)
    (r w : Nat) (ds : List Nat)
    (hvalid : ∀ s ∈ ds, catalog s = true ∧ 0 < s ∧ s < 256)
    (hcap : ds.length ≤ PIPE_CAPACITY) :
    pollRun catalog (deliverAll ⟨r, w, []⟩ ds) ds.length
      = ds.map (fun s => Except.ok (some s))
    ∧ ∀ (st : SelfPipeState) (t : ℚ),
        st.buf.length ≤ ((poll catalog st t).2).buf.length + 1 := by
  constructor
  · have hd := deliverAll_eq ds ⟨r, w, []⟩ (fun s hs => (hvalid s hs).2)
      (by simpa using hcap)
    rw [hd]
    exact pollRun_buf catalog ds _ (by simp) (fun s hs => (hvalid s hs).1)
  · exact fun st t => poll_consumes_at_most_one catalog st t

/-- C1 witness: three deliveries (2, 15, 2) drained by three polls, in
order. -/
theorem c1_poll_returns_deliveries_in_order_witness :
    pollRun (fun n => n == 2 || n == 15) (deliverAll ⟨0, 1, []⟩ [2, 15, 2]) 3
      = [Except.ok (some 2), Except.ok (some 15), Except.ok (some 2)] := by
  have h := c1_poll_returns_deliveries_in_order (fun n => n == 2 || n == 15)
    0 1 [2, 15, 2] (by decide) (by decide)
  simpa using h.1

/-- C2 counterexample: when the write reports a transfer of 0 bytes, the
handler raises `ValueError("wrote 0 bytes instead of 1")` — a structured
error propagating out of the handler — and does not terminate the
process, contradicting the claim that it aborts rather than raising. -/
theorem c2_short_write_counterexample :
    (handle_signalGen ⟨3, 4, []⟩ 15 (.transferred 0 [])).1
        = .raised (.valueError ("wrote 0 bytes instead of 1"))
    ∧ (handle_signalGen ⟨3, 4, []⟩ 15 (.transferred 0 [])).1
        ≠ HandlerOutcome.aborted := by
  exact ⟨rfl, by decide⟩

/-- C2 amended: if the single-byte write transfers a number of bytes other
than one, the handler raises a `ValueError` (a structured error that
propagates out of the handler); it does not terminate the process. -/
theorem c2_short_write_raises (st : SelfPipeState) (signum n : Nat)
    (newBuf : List Nat) (h0 : 0 < signum) (h1 : signum < 256) (hn : n ≠ 1) :
    (handle_signalGen st signum (.transferred n newBuf)).1
        = .raised (.valueError ("wrote " ++ toString n ++ " bytes instead of 1"))
    ∧ (handle_signalGen st signum (.transferred n newBuf)).1
        ≠ HandlerOutcome.aborted := by
  constructor <;> simp [handle_signalGen, h0.ne', Nat.not_le.mpr h1, hn]

/-- C2 witness: a reported transfer of 2 bytes makes the handler raise
`ValueError("wrote 2 bytes instead of 1")`, not abort. -/
theorem c2_short_write_raises_witness :
    (handle_signalGen ⟨0, 1, [7]⟩ 9 (WriteOutcome.transferred 2 [7, 9, 9])).1
        = .raised (.valueError ("wrote 2 bytes instead of 1"))
    ∧ (handle_signalGen ⟨0, 1, [7]⟩ 9 (WriteOutcome.transferred 2 [7, 9, 9])).1
        ≠ HandlerOutcome.aborted :=
  c2_short_write_raises ⟨0, 1, [7]⟩ 9 2 [7, 9, 9] (by decide) (by decide)
    (by decide)

/-- C3: constructing with the empty signal list fails with the
configuration error (realized as `ValueError("no signals specified")`) and
leaves the world untouched: the descriptor counter is unchanged (no pipe
was created) and the disposition table is unchanged (no signal was
registered). -/
theorem c3_empty_set_rejected_without_side_effects (mailboxId : Nat)
    (w : World) :
    SelfPipe.init mailboxId w [] = (.error configurationError, w) := rfl

/-- C4 counterexample: the source class defines no `close` method — its
only methods are `__init__`, `handle_signal` and `poll` — so the claimed
`close()` operation does not exist. -/
theorem c4_no_close_counterexample : "close" ∉ SelfPipe.methodNames := by
  decide

/-- C4 amended: the Mailbox provides no `close()` operation: the class
defines only construction, `handle_signal` and `poll`, so nothing in the
class releases the pipe descriptors or reverts the signal dispositions. -/
theorem c4_method_surface_has_no_close :
    SelfPipe.methodNames = ["__init__", "handle_signal", "poll"]
    ∧ ∀ m ∈ SelfPipe.methodNames, m ≠ "close" := by
  exact ⟨rfl, by decide⟩

/-- C5: two deliveries of the same identity `s` before any poll yield two
successive polls that each return `s` separately; the duplicates are not
merged into one result. -/
theorem c5_duplicate_deliveries_not_merged (catalog : Nat → Bool)
    (r w s : Nat) (hcat : catalog s = true) (h0 : 0 < s) (h1 : s < 256) :
    pollRun catalog (deliverAll ⟨r, w, []⟩ [s, s]) 2
      = [Except.ok (some s), Except.ok (some s)] := by
  have hd := deliverAll_eq [s, s] ⟨r, w, []⟩
    (by intro x hx; simp at hx; subst hx; exact ⟨h0, h1⟩)
    (by simp [PIPE_CAPACITY])
  rw [hd]
  have hr := pollRun_buf catalog [s, s] ⟨r, w, [] ++ [s, s]⟩ (by simp)
    (by intro x hx; simp at hx; subst hx; exact hcat)
  simpa using hr

/-- C5 witness: two deliveries of signal 15 produce two separate poll
results of 15. -/
theorem c5_duplicate_deliveries_not_merged_witness :
    pollRun (fun n => n == 15) (deliverAll ⟨0, 1, []⟩ [15, 15]) 2
      = [Except.ok (some 15), Except.ok (some 15)] :=
  c5_duplicate_deliveries_not_merged (fun n => n == 15) 0 1 15 (by decide)
    (by decide) (by decide)

/-- C6: with no pending notification, `poll(timeout=0)` returns `None`
(`.ok none`), leaves the state unchanged, and this result is distinct from
every error outcome. -/
theorem c6_empty_poll_returns_none (catalog : Nat → Bool)
    (st : SelfPipeState) (hbuf : st.buf = []) :
    (poll catalog st 0).1 = .ok none ∧ (poll catalog st 0).2 = st
    ∧ ∀ e : PyError, (poll catalog st 0).1 ≠ .error e := by
  refine ⟨by simp [poll, selectReadable, hbuf], by simp [poll, selectReadable, hbuf], ?_⟩
  intro e
  simp [poll, selectReadable, hbuf]

/-- C6 witness: polling an empty mailbox with timeout 0 yields `None`. -/
theorem c6_empty_poll_returns_none_witness :
    (poll (fun n => n == 15) ⟨0, 1, []⟩ 0).1 = .ok none
    ∧ (poll (fun n => n == 15) ⟨0, 1, []⟩ 0).2 = ⟨0, 1, []⟩
    ∧ ∀ e : PyError, (poll (fun n => n == 15) ⟨0, 1, []⟩ 0).1 ≠ .error e :=
  c6_empty_poll_returns_none (fun n => n == 15) ⟨0, 1, []⟩ rfl

/-- C7: every negative timeout is rejected with an error
(`ValueError("timeout must be non-negative")`, raised by the readiness
wait) and the state is unchanged: the call neither blocks nor returns an
undefined result. -/
theorem c7_negative_timeout_rejected (catalog : Nat → Bool)
    (st : SelfPipeState) (t : ℚ) (ht : t < 0) :
    poll catalog st t
      = (.error (.valueError ("timeout must be non-negative")), st) := by
  simp [poll, selectReadable, ht]

/-- C7 witness: timeout -1 is rejected. -/
theorem c7_negative_timeout_rejected_witness :
    poll (fun n => n == 15) ⟨0, 1, [15]⟩ (-1)
      = (.error (.valueError ("timeout must be non-negative")), ⟨0, 1, [15]⟩) :=
  c7_negative_timeout_rejected (fun n => n == 15) ⟨0, 1, [15]⟩ (-1)
    (by decide)

/-- C8: registering the same identity more than once — within one
construction's loop or across two constructions — is idempotent: the final
process-wide disposition for `s` is the handler of the last registration,
exactly what a single registration of `s` with that handler would leave. -/
theorem c8_last_registration_wins (d : Nat → Option Nat)
    (sigs1 sigs2 : List Nat) (h1 h2 s : Nat) (hs : s ∈ sigs2) :
    registerAll (registerAll d sigs1 h1) sigs2 h2 s = some h2
    ∧ registerAll (registerAll d sigs1 h1) sigs2 h2 s = signalSignal d s h2 s := by
  refine ⟨registerAll_mem _ _ _ _ hs, ?_⟩
  rw [registerAll_mem _ _ _ _ hs, signalSignal, Function.update_same]

/-- C8 witness: mailbox 1 registers {2}, then mailbox 2 registers {2, 15};
the disposition of 2 is mailbox 2's handler, as after a single
registration. -/
theorem c8_last_registration_wins_witness :
    registerAll (registerAll (fun _ => none) [2] 1) [2, 15] 2 2 = some 2
    ∧ registerAll (registerAll (fun _ => none) [2] 1) [2, 15] 2 2
        = signalSignal (fun _ => none) 2 2 2 :=
  c8_last_registration_wins (fun _ => none) [2] [2, 15] 1 2 2 (by decide)

/-- C9: when the drained byte is not a member of the host catalog, the
decode raises `ValueError` at the poll boundary — the result is an error,
never a signal identity and never `None`; when the byte is a catalog
member, poll returns exactly that member. -/
theorem c9_decode_at_poll_boundary (catalog : Nat → Bool) (r w b : Nat)
    (rest : List Nat) :
    (catalog b = false →
      poll catalog ⟨r, w, b :: rest⟩ 0
        = (.error (.valueError (toString b ++ " is not a valid Signals")),
           ⟨r, w, rest⟩)
      ∧ ∀ x : Option Nat, (poll catalog ⟨r, w, b :: rest⟩ 0).1 ≠ .ok x)
    ∧ (catalog b = true →
      poll catalog ⟨r, w, b :: rest⟩ 0 = (.ok (some b), ⟨r, w, rest⟩)) := by
  constructor
  · intro hc
    constructor
    · simp [poll, selectReadable, osRead1, SignalsDecode, hc]
    · intro x
      simp [poll, selectReadable, osRead1, SignalsDecode, hc]
  · intro hc
    exact poll_cons catalog ⟨r, w, b :: rest⟩ b rest rfl hc

/-- C9 witness: byte 99 outside the catalog {15} makes poll raise; byte 15
decodes to 15. -/
theorem c9_decode_at_poll_boundary_witness :
    (poll (fun n => n == 15) ⟨0, 1, [99]⟩ 0
        = (.error (.valueError ("99 is not a valid Signals")), ⟨0, 1, []⟩)
      ∧ ∀ x : Option Nat, (poll (fun n => n == 15) ⟨0, 1, [99]⟩ 0).1 ≠ .ok x)
    ∧ poll (fun n => n == 15) ⟨0, 1, [15]⟩ 0 = (.ok (some 15), ⟨0, 1, []⟩) :=
  ⟨(c9_decode_at_poll_boundary (fun n => n == 15) 0 1 99 []).1 (by decide),
   (c9_decode_at_poll_boundary (fun n => n == 15) 0 1 15 []).2 (by decide)⟩

/-- C10: neither `handle_signal` nor `poll` modifies the descriptor
fields: `pipe_fd_r` and `pipe_fd_w` are the same after either call as
before it, for every state, signal number, catalog and timeout. -/
theorem c10_fd_fields_frame (catalog : Nat → Bool) (st : SelfPipeState)
    (signum : Nat) (t : ℚ) :
    ((handle_signal st signum).2.pipe_fd_r = st.pipe_fd_r
      ∧ (handle_signal st signum).2.pipe_fd_w = st.pipe_fd_w)
    ∧ ((poll catalog st t).2.pipe_fd_r = st.pipe_fd_r
      ∧ (poll catalog st t).2.pipe_fd_w = st.pipe_fd_w) :=
  ⟨handle_signalGen_fds st signum (osWrite st.buf signum),
   poll_fds catalog st t⟩
